import Mathlib

/-
Verification of the simulation-and-metrics engine of the grok-backtester
repository: a shallow embedding, in Lean 4, of

  * src/backtester/metrics/performance.py  (PerformanceCalculator)
  * src/backtester/engine/backtest.py      (run_backtest, run_parallel_backtests)
  * src/backtester/optimization/grid_search.py (GridSearchOptimizer)

Modelling conventions.

  * Python floats are modelled by the rationals, extended with the three
    special values a metric can take in this code base (nan, +inf, -inf)
    via the inductive type Fl.  Operations that can only produce or meet
    finite values are carried out directly on the rationals.
  * The two irrational-valued primitives used by the metrics code,
    math/numpy sqrt (for standard deviations) and float ** (for CAGR),
    are abstracted as parameters of type FloatOps; no claim constrains a
    metric whose value passes through them, and every theorem below is
    universally quantified over these parameters.
  * pandas DataFrames are modelled by structures carrying the column
    lists the code actually reads plus the list of column names present;
    each value list holds one entry per table row.  Series hold no NaN
    entries (the engine itself fills NaNs with 0 before use), so dropna
    is the identity in this model.
  * Python exceptions are modelled by the inductive type PyExc; fallible
    functions return Except PyExc.  The exception classes of
    src/backtester/utils/helpers.py that matter here: EngineError derives
    from BacktestError(Exception) and is NOT a subclass of KeyError,
    TypeError, ValueError or RuntimeError.
  * joblib / ThreadPoolExecutor fan-out is modelled sequentially in input
    order; both code paths apply run_backtest to the same ordered pairs,
    and the claims checked here do not depend on scheduling.
-/

/-- Python float values reachable in the metrics code: a finite rational,
nan, +inf or -inf. -/
inductive Fl where
  | val : ℚ → Fl
  | nan : Fl
  | inf : Fl
  | ninf : Fl
deriving DecidableEq

/-- IEEE-style addition on modelled floats (used by numpy mean and alpha). -/
def Fl.add : Fl → Fl → Fl
  | .val a, .val b => .val (a + b)
  | .val _, .nan => .nan
  | .val _, .inf => .inf
  | .val _, .ninf => .ninf
  | .nan, _ => .nan
  | .inf, .val _ => .inf
  | .inf, .nan => .nan
  | .inf, .inf => .inf
  | .inf, .ninf => .nan
  | .ninf, .val _ => .ninf
  | .ninf, .nan => .nan
  | .ninf, .inf => .nan
  | .ninf, .ninf => .ninf

/-- IEEE-style negation on modelled floats. -/
def Fl.neg : Fl → Fl
  | .val a => .val (-a)
  | .nan => .nan
  | .inf => .ninf
  | .ninf => .inf

/-- IEEE-style multiplication on modelled floats. -/
def Fl.mul : Fl → Fl → Fl
  | .val a, .val b => .val (a * b)
  | .val _, .nan => .nan
  | .val a, .inf => if a = 0 then .nan else if 0 < a then .inf else .ninf
  | .val a, .ninf => if a = 0 then .nan else if 0 < a then .ninf else .inf
  | .nan, _ => .nan
  | .inf, .val b => if b = 0 then .nan else if 0 < b then .inf else .ninf
  | .inf, .nan => .nan
  | .inf, .inf => .inf
  | .inf, .ninf => .ninf
  | .ninf, .val b => if b = 0 then .nan else if 0 < b then .ninf else .inf
  | .ninf, .nan => .nan
  | .ninf, .inf => .ninf
  | .ninf, .ninf => .inf

/-- IEEE-style division on modelled floats. -/
def Fl.div : Fl → Fl → Fl
  | .val a, .val b =>
      if b = 0 then (if a = 0 then .nan else if 0 < a then .inf else .ninf)
      else .val (a / b)
  | .val _, .nan => .nan
  | .val _, .inf => .val 0
  | .val _, .ninf => .val 0
  | .nan, _ => .nan
  | .inf, .val b => if 0 ≤ b then .inf else .ninf
  | .inf, .nan => .nan
  | .inf, .inf => .nan
  | .inf, .ninf => .nan
  | .ninf, .val b => if 0 ≤ b then .ninf else .inf
  | .ninf, .nan => .nan
  | .ninf, .inf => .nan
  | .ninf, .ninf => .nan

/-- IEEE-style subtraction on modelled floats. -/
def Fl.sub (a b : Fl) : Fl := a.add b.neg

/-- Sum of a list of modelled floats starting from 0, as numpy sum does. -/
def flSum (xs : List Fl) : Fl := xs.foldl Fl.add (Fl.val 0)

/-- numpy mean of a list of modelled floats: sum divided by length, nan on
the empty list. -/
def flMean (xs : List Fl) : Fl :=
  if xs.isEmpty then Fl.nan else Fl.div (flSum xs) (Fl.val (xs.length : ℚ))

/-- Python strict greater-than on modelled floats: every comparison with
nan is false, as in IEEE / Python. -/
def Fl.gt : Fl → Fl → Bool
  | .val a, .val b => decide (b < a)
  | .val _, .nan => false
  | .val _, .inf => false
  | .val _, .ninf => true
  | .nan, _ => false
  | .inf, .val _ => true
  | .inf, .nan => false
  | .inf, .inf => false
  | .inf, .ninf => true
  | .ninf, _ => false

/-- Python exceptions reachable in the modelled code, each carrying its
message (for KeyError, the missing key).  EngineError models the class of
src/backtester/utils/helpers.py, which derives from BacktestError(Exception)
and is none of the other four. -/
inductive PyExc where
  | keyError : String → PyExc
  | typeError : String → PyExc
  | valueError : String → PyExc
  | runtimeError : String → PyExc
  | engineError : String → PyExc
deriving DecidableEq

/-- Membership of an exception in the tuple
(KeyError, TypeError, ValueError, RuntimeError) caught by
GridSearchOptimizer._evaluate_params (grid_search.py line 171). -/
def caughtByEval : PyExc → Bool
  | .engineError _ => false
  | _ => true

/-- Membership of an exception in the classes caught around future.result()
in GridSearchOptimizer.optimize (grid_search.py lines 200-205); the
TimeoutError / CancelledError arms are unreachable in this sequential
model. -/
def caughtByOptimize : PyExc → Bool
  | .valueError _ => true
  | .runtimeError _ => true
  | .typeError _ => true
  | _ => false

/-- Mean of a list of rationals, as pandas Series.mean (sum over length). -/
def listMean (xs : List ℚ) : ℚ := xs.sum / (xs.length : ℚ)

/-- Sample variance (ddof = 1) of a list of rationals; squared deviations
summed and divided by n - 1.  Callers guard the n < 2 case. -/
def sampleVar (xs : List ℚ) : ℚ :=
  (xs.map (fun x => (x - listMean xs) * (x - listMean xs))).sum
    / ((xs.length : ℚ) - 1)

/-- Minimum of a list of rationals, 0 on the empty list, mirroring
`drawdown.min() if not drawdown.empty else 0.0`. -/
def listMin : List ℚ → ℚ
  | [] => 0
  | x :: xs => xs.foldl min x

/-- Running maximum from a given running value, the tail step of pandas
Series.cummax. -/
def cummaxFrom (acc : ℚ) : List ℚ → List ℚ
  | [] => []
  | x :: xs => (max acc x) :: cummaxFrom (max acc x) xs

/-- pandas Series.cummax on a list of rationals. -/
def cummax : List ℚ → List ℚ
  | [] => []
  | x :: rest => x :: cummaxFrom x rest

/-- The abstract float primitives the metrics code needs: fsqrt models
numpy sqrt on a nonnegative float, fpow models float **.  No claim
constrains a value that passes through either, and the theorems below
hold for every choice. -/
structure FloatOps where
  fsqrt : ℚ → ℚ
  fpow : ℚ → ℚ → ℚ
deriving Inhabited

/-- pandas sample standard deviation (ddof = 1) of a series, as a modelled
float: NaN when fewer than two entries (0/0), otherwise the square root of
the sample variance. -/
def stdF (ops : FloatOps) (xs : List ℚ) : Fl :=
  if xs.length < 2 then Fl.nan else Fl.val (ops.fsqrt (sampleVar xs))

/-- Column name of the periodic-return column of a portfolio table. -/
def colReturns : String := "returns"

/-- Column name of the cumulative-value column of a portfolio table. -/
def colTotal : String := "total"

/-- Column name of the holdings column of a portfolio table. -/
def colHoldings : String := "holdings"

/-- Column name of the cash column of a portfolio table. -/
def colCash : String := "cash"

/-- Column name of the adjusted-close column of a price table. -/
def colAdjClose : String := "Adj Close"

/-- Portfolio DataFrame as read by PerformanceCalculator.calculate_metrics:
the set of column names present, the two value columns the calculator
reads, the two further columns the engine writes, and the optional
DatetimeIndex (a list of day numbers; none models a non-datetime index).
Each value list carries one entry per table row. -/
structure Portfolio where
  columns : List String
  returns : List ℚ
  total : List ℚ
  holdings : List ℚ
  cash : List ℚ
  dates : Option (List ℤ)
deriving DecidableEq

/-- Configuration of PerformanceCalculator.__init__: annual risk-free
rate, trading days per year, optional benchmark return series (already
aligned positionally to the portfolio index). -/
structure PerfConfig where
  risk_free_rate : ℚ
  trading_days_per_year : ℕ
  benchmark_returns : Option (List ℚ)
deriving DecidableEq

/-- PerformanceCalculator() with its default arguments
(risk_free_rate 0, 252 trading days, no benchmark). -/
def defaultPerfConfig : PerfConfig := ⟨0, 252, none⟩

/-- Metrics dictionary: string keys to modelled float values, in the
insertion order of performance.py lines 156-170. -/
def Metrics := List (String × Fl)

instance : DecidableEq Metrics := by
  unfold Metrics
  infer_instance

/-- Metric dictionary keys, in source order. -/
def keyTotalReturn : String := "total_return"

/-- Metric key of the compound annual growth rate. -/
def keyCagr : String := "cagr"

/-- Metric key of the Sharpe value. -/
def keySharpe : String := "sharpe_ratio"

/-- Metric key of the Sortino value. -/
def keySortino : String := "sortino_ratio"

/-- Metric key of the maximum drawdown. -/
def keyMaxDrawdown : String := "max_drawdown"

/-- Metric key of the Calmar value. -/
def keyCalmar : String := "calmar_ratio"

/-- Metric key of the annualized volatility. -/
def keyAnnVol : String := "annualized_volatility"

/-- Metric key of beta. -/
def keyBeta : String := "beta"

/-- Metric key of alpha. -/
def keyAlpha : String := "alpha"

/-- Metric key of the trade count. -/
def keyNumTrades : String := "num_trades"

/-- Metric key of the win rate. -/
def keyWinRate : String := "win_rate"

/-- Metric key of the average return per trade. -/
def keyAvgReturnPerTrade : String := "avg_return_per_trade"

/-- Metric key of the profit factor. -/
def keyProfitFactor : String := "profit_factor"

/-- Message of the ValueError raised on a portfolio table missing a
required column (performance.py line 63; quotes around the column names
omitted). -/
def msgMissingColumns : String := "Portfolio missing required returns or total columns."

/-- PerformanceCalculator._default_metrics (performance.py lines 175-197):
every metric zero except beta, alpha and profit_factor, which are NaN. -/
def default_metrics : Metrics :=
  [ (keyTotalReturn, Fl.val 0)
  , (keyCagr, Fl.val 0)
  , (keySharpe, Fl.val 0)
  , (keySortino, Fl.val 0)
  , (keyMaxDrawdown, Fl.val 0)
  , (keyCalmar, Fl.val 0)
  , (keyAnnVol, Fl.val 0)
  , (keyBeta, Fl.nan)
  , (keyAlpha, Fl.nan)
  , (keyNumTrades, Fl.val 0)
  , (keyWinRate, Fl.val 0)
  , (keyAvgReturnPerTrade, Fl.val 0)
  , (keyProfitFactor, Fl.nan)
  ]

/-- Sample covariance (ddof = 1) of two equal-length series, the [0,1]
entry of numpy cov. -/
def sampleCov (xs ys : List ℚ) : ℚ :=
  ((List.zipWith (fun x y => (x - listMean xs) * (y - listMean ys)) xs ys).sum)
    / ((xs.length : ℚ) - 1)

/-- Beta and alpha of performance.py lines 144-154: NaN when no benchmark
or an empty benchmark is configured; otherwise the benchmark is aligned
(positionally in this model, missing entries as 0), beta is sample
covariance over benchmark variance (NaN when that variance is 0) and
alpha follows the CAPM line. -/
def betaAlpha (cfg : PerfConfig) (returns : List ℚ) (ann_mean : ℚ) : Fl × Fl :=
  match cfg.benchmark_returns with
  | none => (Fl.nan, Fl.nan)
  | some b =>
      if b.isEmpty then (Fl.nan, Fl.nan)
      else
        let aligned := (b.take returns.length)
          ++ List.replicate (returns.length - b.length) 0
        let cov := sampleCov returns aligned
        let bench_var := sampleVar aligned
        let beta := if bench_var = 0 then Fl.nan else Fl.val (cov / bench_var)
        let ann_bench := listMean aligned * (cfg.trading_days_per_year : ℚ)
        let alpha := Fl.sub (Fl.val ann_mean)
          (Fl.add (Fl.val cfg.risk_free_rate)
            (Fl.mul beta (Fl.val (ann_bench - cfg.risk_free_rate))))
        (beta, alpha)

/-- The metrics dictionary literal of performance.py lines 156-170, keys
in insertion order. -/
def mkMetrics (total_return cagr : ℚ) (sharpe sortino : Fl)
    (max_drawdown calmar : ℚ) (vol beta alpha : Fl) (num_trades : ℕ)
    (win_rate avg_return_per_trade : ℚ) (profit_factor : Fl) : Metrics :=
  [ (keyTotalReturn, Fl.val total_return)
  , (keyCagr, Fl.val cagr)
  , (keySharpe, sharpe)
  , (keySortino, sortino)
  , (keyMaxDrawdown, Fl.val max_drawdown)
  , (keyCalmar, Fl.val calmar)
  , (keyAnnVol, vol)
  , (keyBeta, beta)
  , (keyAlpha, alpha)
  , (keyNumTrades, Fl.val (num_trades : ℚ))
  , (keyWinRate, Fl.val win_rate)
  , (keyAvgReturnPerTrade, Fl.val avg_return_per_trade)
  , (keyProfitFactor, profit_factor)
  ]

/-- PerformanceCalculator.calculate_metrics (performance.py lines 49-173),
translated line by line.  Raising is modelled by Except.error; the series
hold no NaN entries so the dropna on the returns column is the identity. -/
def calculate_metrics (ops : FloatOps) (cfg : PerfConfig) (p : Portfolio) :
    Except PyExc Metrics :=
  if ¬ (colReturns ∈ p.columns ∧ colTotal ∈ p.columns) then
    Except.error (PyExc.valueError msgMissingColumns)
  else if p.returns.length < 2 then
    Except.ok default_metrics
  else
    let returns := p.returns
    let total := p.total
    let total_return :=
      if total.headD 0 ≠ 0 then total.getLastD 0 / total.headD 0 - 1 else 0
    let num_days : ℤ :=
      match p.dates with
      | some ds => ds.getLastD 0 - ds.headD 0
      | none => (returns.length : ℤ)
    let cagr :=
      if total.headD 0 ≠ 0 ∧ 0 < num_days then
        ops.fpow (total.getLastD 0 / total.headD 0)
          ((cfg.trading_days_per_year : ℚ) / (num_days : ℚ)) - 1
      else 0
    let ann_mean := listMean returns * (cfg.trading_days_per_year : ℚ)
    let ann_std := Fl.mul (stdF ops returns)
      (Fl.val (ops.fsqrt (cfg.trading_days_per_year : ℚ)))
    let sharpe :=
      if ann_std ≠ Fl.val 0 then
        Fl.div (Fl.val (ann_mean - cfg.risk_free_rate)) ann_std
      else Fl.val 0
    let downside := returns.filter (fun r => r < 0)
    let ann_down :=
      if downside.isEmpty then Fl.val 0
      else Fl.mul (stdF ops downside)
        (Fl.val (ops.fsqrt (cfg.trading_days_per_year : ℚ)))
    let sortino :=
      if ann_down ≠ Fl.val 0 then
        Fl.div (Fl.val (ann_mean - cfg.risk_free_rate)) ann_down
      else Fl.val 0
    let peak := cummax total
    let drawdown := List.zipWith (fun t pk => (t - pk) / pk) total peak
    let max_drawdown := if drawdown.isEmpty then 0 else listMin drawdown
    let calmar := if max_drawdown ≠ 0 then cagr / |max_drawdown| else 0
    let trades := returns.filter (fun r => r ≠ 0)
    let num_trades := trades.length
    let win_rate :=
      if num_trades = 0 then 0
      else ((trades.filter (fun r => 0 < r)).length : ℚ) / (num_trades : ℚ)
    let avg_return_per_trade := if num_trades = 0 then 0 else listMean trades
    let profit_factor :=
      if num_trades = 0 then Fl.nan
      else
        let gross_profit := (trades.filter (fun r => 0 < r)).sum
        let gross_loss := |(trades.filter (fun r => r < 0)).sum|
        if gross_loss ≠ 0 then Fl.val (gross_profit / gross_loss) else Fl.inf
    let ba := betaAlpha cfg returns ann_mean
    Except.ok (mkMetrics total_return cagr sharpe sortino max_drawdown calmar
      ann_std ba.1 ba.2 num_trades win_rate avg_return_per_trade profit_factor)

/-- Price DataFrame as read by run_backtest: the column names present and
the adjusted-close column (one entry per row; the list also fixes the row
count when the column is absent), plus the optional datetime index. -/
structure PriceTable where
  columns : List String
  adjClose : List ℚ
  dates : Option (List ℤ)
deriving DecidableEq

/-- A strategy as the engine sees it: a generate_signals function from a
price table to a signal series aligned with it.  Strategies are opaque
collaborators; this model takes them as total functions. -/
def Strategy := PriceTable → List ℚ

/-- Pairwise operation underlying the pandas shift / diff / pct_change
patterns with fillna(0): entry 0 is 0 (the filled NaN), entry t for t > 0
is f applied to the entries at t and t-1. -/
def pairOp (f : ℚ → ℚ → ℚ) : List ℚ → List ℚ
  | [] => []
  | x :: xs => 0 :: List.zipWith f xs (x :: xs)

/-- signals.shift(1).fillna(0): entry 0 becomes 0, entry t holds the
signal at t-1. -/
def shift1 : List ℚ → List ℚ := pairOp (fun _ prev => prev)

/-- series.pct_change().fillna(0): entry 0 is 0, entry t is the ratio of
consecutive entries minus 1. -/
def pctChange : List ℚ → List ℚ := pairOp (fun cur prev => cur / prev - 1)

/-- series.diff().fillna(0): entry 0 is 0, entry t is the difference of
consecutive entries. -/
def diffF : List ℚ → List ℚ := pairOp (fun cur prev => cur - prev)

/-- Cumulative product step: initial_capital * (1 + net_returns).cumprod(),
one output entry per return entry. -/
def scanMul (a : ℚ) : List ℚ → List ℚ
  | [] => []
  | r :: rs => (a * (1 + r)) :: scanMul (a * (1 + r)) rs

/-- Net period returns of backtest.py lines 58-66: lagged positions times
asset returns, minus (commission + slippage) times the absolute signal
turnover. -/
def netReturns (signals prices : List ℚ) (commission slippage : ℚ) : List ℚ :=
  List.zipWith (fun g c => g - c)
    (List.zipWith (fun p r => p * r) (shift1 signals) (pctChange prices))
    (((diffF signals).map (fun d => |d|)).map
      (fun t => (commission + slippage) * t))

/-- The portfolio DataFrame built by backtest.py lines 68-72 from the
signal series. -/
def enginePortfolio (data : PriceTable) (signals : List ℚ)
    (initial_capital commission slippage : ℚ) : Portfolio :=
  let positions := shift1 signals
  let net := netReturns signals data.adjClose commission slippage
  let total := scanMul initial_capital net
  let holdings := List.zipWith (fun p t => p * t) positions total
  let cash := List.zipWith (fun t h => t - h) total holdings
  ⟨[colReturns, colTotal, colHoldings, colCash], net, total, holdings, cash,
    data.dates⟩

/-- Message of the EngineError raised by backtest.py line 52. -/
def msgInsufficient : String := "Insufficient or invalid data for backtest"

/-- The message text of a modelled exception. -/
def PyExc.msg : PyExc → String
  | .keyError m => m
  | .typeError m => m
  | .valueError m => m
  | .runtimeError m => m
  | .engineError m => m

/-- Exception policy of run_backtest (backtest.py lines 82-87): an
EngineError propagates as-is, any other exception is wrapped in an
EngineError carrying the original message. -/
def wrapEngine (e : PyExc) : PyExc :=
  match e with
  | .engineError _ => e
  | other => .engineError ("Backtest failed: " ++ other.msg)

/-- Result dictionary of run_backtest: the portfolio table and its metrics. -/
structure BTResult where
  portfolio : Portfolio
  metrics : Metrics
deriving DecidableEq

/-- run_backtest (backtest.py lines 18-87): validate the price table
(adjusted-close column present and at least two rows, otherwise
EngineError), obtain signals, build the lagged-position return/equity
table, and attach the metrics of a default-configured
PerformanceCalculator. -/
def run_backtest (ops : FloatOps) (data : PriceTable) (strategy : Strategy)
    (initial_capital commission slippage : ℚ) : Except PyExc BTResult :=
  if ¬ (colAdjClose ∈ data.columns) ∨ data.adjClose.length < 2 then
    Except.error (PyExc.engineError msgInsufficient)
  else
    let signals := strategy data
    let portfolio := enginePortfolio data signals initial_capital commission
      slippage
    match calculate_metrics ops defaultPerfConfig portfolio with
    | Except.error e => Except.error (wrapEngine e)
    | Except.ok m => Except.ok ⟨portfolio, m⟩

/-- Strategy parameters: the params dictionary of a strategy config. -/
def Params := List (String × ℚ)

instance : DecidableEq Params := by
  unfold Params
  infer_instance

/-- A registry entry value: a strategy constructor taking the params map. -/
def StratCtor := Params → Strategy

/-- STRATEGY_REGISTRY as consumed by run_parallel_backtests: a mapping
from strategy-type strings to constructors. -/
def Registry := List (String × StratCtor)

/-- The sequential mapping of run_backtest over the (data, strategy) pairs
(backtest.py lines 132-154; the joblib branch applies the same call to
the same ordered pairs).  The second component instruments the model with
the number of run_backtest invocations made; a failing invocation is
counted and aborts the batch, as an uncaught exception does. -/
def runAllC (ops : FloatOps) (cap com slip : ℚ) :
    List (PriceTable × Strategy) → Except PyExc (List BTResult) × ℕ
  | [] => (Except.ok [], 0)
  | (d, st) :: rest =>
      match run_backtest ops d st cap com slip with
      | Except.error e => (Except.error e, 1)
      | Except.ok r =>
          let tail := runAllC ops cap com slip rest
          ((tail.1).map (fun l => r :: l), tail.2 + 1)

/-- Backtest configuration dictionary consumed by the runner. -/
structure BacktestConfig where
  initial_capital : ℚ
  commission : ℚ
  slippage : ℚ
  parallel : Bool
deriving DecidableEq

/-- run_parallel_backtests (backtest.py lines 90-163): resolve the
strategy type against the registry, failing with an EngineError naming
the invalid type before any simulation when the lookup misses; otherwise
instantiate one strategy per table and map run_backtest over the pairs in
input order.  The second component counts run_backtest invocations. -/
def run_parallel_backtestsC (ops : FloatOps) (registry : Registry)
    (datas : List PriceTable) (strategy_type : String) (params : Params)
    (config : BacktestConfig) : Except PyExc (List BTResult) × ℕ :=
  match registry.lookup strategy_type with
  | none =>
      (Except.error (PyExc.engineError
        ("Invalid strategy type: " ++ strategy_type)), 0)
  | some ctor =>
      let strategies := datas.map (fun _ => ctor params)
      runAllC ops config.initial_capital config.commission config.slippage
        (datas.zip strategies)

/-- Configuration of GridSearchOptimizer.__init__ (grid_search.py lines
76-106); data holds the price tables in dictionary-value order. -/
structure GridConfig where
  strategy_type : String
  param_grid : List (String × List ℚ)
  objective_metric : String
  data : List PriceTable
  backtest_config : BacktestConfig
  risk_free_rate : ℚ

/-- GridSearchOptimizer._generate_combinations (grid_search.py lines
119-130): the Cartesian product of the grid values in itertools.product
order, each combination a params dictionary. -/
def generateCombinations : List (String × List ℚ) → List Params
  | [] => [[]]
  | (k, vs) :: rest =>
      vs.flatMap (fun v => (generateCombinations rest).map
        (fun combo => (k, v) :: combo))

/-- The try-block body of GridSearchOptimizer._evaluate_params
(grid_search.py lines 141-169): run the backtests, compute metrics per
symbol with a PerformanceCalculator carrying the configured risk-free
rate, look the objective metric up in each metrics dictionary (a missing
key raises KeyError — the lookup uses the objective name verbatim,
negation marker included), average, and negate the average when the
objective name starts with the negation marker. -/
def evalBody (ops : FloatOps) (registry : Registry) (cfg : GridConfig)
    (params : Params) : Except PyExc Fl := do
  let results ← (run_parallel_backtestsC ops registry cfg.data
    cfg.strategy_type params cfg.backtest_config).1
  let metrics_list ← results.mapM
    (fun res => calculate_metrics ops ⟨cfg.risk_free_rate, 252, none⟩
      res.portfolio)
  let values ← metrics_list.mapM
    (fun m =>
      match m.lookup cfg.objective_metric with
      | none => Except.error (PyExc.keyError cfg.objective_metric)
      | some v => Except.ok v)
  let avg := flMean values
  if cfg.objective_metric.startsWith "-" then
    return avg.neg
  else
    return avg

/-- Outcome of evaluating one parameter combination: a score, or an
exception that escaped the except clause of _evaluate_params. -/
inductive EvalOutcome where
  | score : Fl → EvalOutcome
  | raised : PyExc → EvalOutcome
deriving DecidableEq

/-- GridSearchOptimizer._evaluate_params (grid_search.py lines 132-173):
the try-block body guarded by
`except (KeyError, TypeError, ValueError, RuntimeError)`, which scores
the combination -inf; any other exception (notably EngineError, into
which run_backtest wraps every simulation failure) escapes. -/
def evaluate_params (ops : FloatOps) (registry : Registry)
    (cfg : GridConfig) (params : Params) : EvalOutcome :=
  match evalBody ops registry cfg params with
  | Except.ok v => EvalOutcome.score v
  | Except.error e =>
      if caughtByEval e then EvalOutcome.score Fl.ninf
      else EvalOutcome.raised e

/-- Message of the ValueError raised by optimize when no combination was
scored (grid_search.py line 208). -/
def msgNoValid : String := "No valid parameter combinations evaluated."

/-- The result-collection loop of GridSearchOptimizer.optimize
(grid_search.py lines 185-205), evaluated in enumeration order: a scored
combination is recorded; an exception escaping _evaluate_params is
re-raised by future.result(), where only ValueError / RuntimeError /
TypeError (and the timeout and cancellation cases, unreachable here) are
caught and merely logged — the combination is dropped without a score —
while any other exception propagates and aborts the whole sweep. -/
def optimizeGo (ops : FloatOps) (registry : Registry) (cfg : GridConfig) :
    List Params → Except PyExc (List (Params × Fl))
  | [] => Except.ok []
  | c :: cs =>
      match evaluate_params ops registry cfg c with
      | EvalOutcome.score v =>
          (optimizeGo ops registry cfg cs).map (fun l => (c, v) :: l)
      | EvalOutcome.raised e =>
          if caughtByOptimize e then optimizeGo ops registry cfg cs
          else Except.error e

/-- GridSearchOptimizer.optimize (grid_search.py lines 175-216): evaluate
every combination, raise ValueError when nothing was scored, otherwise
return the maximum-score combination (Python max semantics: the first
entry is kept unless a later one compares strictly greater). -/
def optimize (ops : FloatOps) (registry : Registry) (cfg : GridConfig) :
    Except PyExc (Params × Fl) :=
  match optimizeGo ops registry cfg (generateCombinations cfg.param_grid) with
  | Except.error e => Except.error e
  | Except.ok results =>
      match results with
      | [] => Except.error (PyExc.valueError msgNoValid)
      | r :: rs =>
          Except.ok (rs.foldl
            (fun best x => if Fl.gt x.2 best.2 then x else best) r)

/-- A concrete choice of the abstract float primitives, used only to
instantiate witnesses (the claims proved below never depend on it). -/
def idOps : FloatOps := ⟨fun q => q, fun b _ => b⟩

/-- Result of a backtest run known to have succeeded, with an inert
placeholder on the error branch. -/
def okOr : Except PyExc BTResult → BTResult
  | Except.ok r => r
  | Except.error _ => ⟨⟨[], [], [], [], [], none⟩, []⟩

/-- Metrics of a calculation known to have succeeded, with the empty
dictionary on the error branch. -/
def okMetrics : Except PyExc Metrics → Metrics
  | Except.ok m => m
  | Except.error _ => []

/-- The period-return column of a backtest result, the empty list on the
error branch. -/
def getReturns (e : Except PyExc BTResult) : List ℚ := (okOr e).portfolio.returns

/-- Two-row price table with a constant adjusted close of 100. -/
def flatPrices : PriceTable := ⟨[colAdjClose], [100, 100], none⟩

/-- Strategy holding the zero signal on both rows of a two-row table. -/
def sigStayFlat : Strategy := fun _ => [0, 0]

/-- Strategy agreeing with sigStayFlat at index 0 and differing at index 1. -/
def sigEnterLate : Strategy := fun _ => [0, 1]

/-- Three-row price table 100, 101, 102. -/
def risingPrices : PriceTable := ⟨[colAdjClose], [100, 101, 102], none⟩

/-- Strategy fully long on every row of a three-row table. -/
def sigAllLong : Strategy := fun _ => [1, 1, 1]

/-- Price table with two rows but no adjusted-close column. -/
def noAdjCloseData : PriceTable := ⟨[], [0, 0], none⟩

/-- Portfolio table whose equity goes negative: a period return of -3/2
takes equity from 100 to -50 (both required columns present). -/
def negEquityPort : Portfolio :=
  ⟨[colReturns, colTotal], [0, -3/2], [100, -50], [], [], none⟩

/-- Portfolio table with positive equity throughout: equity halves from
100 to 50. -/
def halvingPort : Portfolio :=
  ⟨[colReturns, colTotal], [0, -1/2], [100, 50], [], [], none⟩

/-- Portfolio table with both required columns but a single row. -/
def oneRowPort : Portfolio := ⟨[colReturns, colTotal], [5], [1], [], [], none⟩

/-- Portfolio table lacking the returns column and holding a single row. -/
def noReturnsColPort : Portfolio := ⟨[colTotal], [1], [1], [], [], none⟩

/-- Portfolio table with three rows whose nonzero returns are one win of
1/10 and one loss of -1/20. -/
def mixedTradesPort : Portfolio :=
  ⟨[colReturns, colTotal], [1/10, -1/20, 0], [110, 1045/10, 1045/10], [], [],
    none⟩

/-- A registry with the single strategy type s, whose instances go long
from the second row on. -/
def soloRegistry : Registry := [("s", fun _ => fun _ => [0, 1])]

/-- Valid two-row price table for the grid-search scenarios. -/
def gridGoodData : PriceTable := ⟨[colAdjClose], [100, 101], none⟩

/-- The single parameter combination of the one-point grid used below. -/
def comboP1 : Params := [("p", 1)]

/-- The objective name minimizing drawdown via the negation marker. -/
def negObjective : String := "-max_drawdown"

/-- Grid-search configuration with a one-point grid, one valid
instrument, and the negation-marked objective -max_drawdown. -/
def negObjectiveCfg : GridConfig :=
  ⟨"s", [("p", [1])], negObjective, [gridGoodData], ⟨100000, 0, 0, false⟩, 0⟩

/-- Grid-search configuration with a one-point grid whose single
instrument lacks the adjusted-close column, so its backtest raises an
EngineError. -/
def sweepAbortCfg : GridConfig :=
  ⟨"s", [("p", [1])], keySharpe, [noAdjCloseData], ⟨100000, 0, 0, false⟩, 0⟩

/-- A strategy-type string absent from soloRegistry. -/
def bogusType : String := "bogus"

/-- Length of a pairwise operation output equals the input length. -/
theorem pairOp_length (f : ℚ → ℚ → ℚ) (xs : List ℚ) :
    (pairOp f xs).length = xs.length := by
  cases xs with
  | nil => rfl
  | cons x rest => simp [pairOp, List.length_zipWith]

/-- Entry 0 of a pairwise operation output is the filled 0. -/
theorem pairOp_getD_zero (f : ℚ → ℚ → ℚ) (xs : List ℚ) :
    (pairOp f xs).getD 0 0 = 0 := by
  cases xs with
  | nil => rfl
  | cons x rest => rfl

/-- Entry t+1 of a pairwise operation output applies f to the entries at
t+1 and t of the input. -/
theorem pairOp_getD_succ (f : ℚ → ℚ → ℚ) (x : ℚ) (rest : List ℚ) (t : ℕ)
    (h : t < rest.length) :
    (pairOp f (x :: rest)).getD (t + 1) 0
      = f (rest.getD t 0) ((x :: rest).getD t 0) := by
  have hz : (List.zipWith f rest (x :: rest)).length = rest.length := by
    simp [List.length_zipWith]
  have ht : t < (List.zipWith f rest (x :: rest)).length := by omega
  have ht2 : t < (x :: rest).length := by simp; omega
  show (List.zipWith f rest (x :: rest)).getD t 0 = _
  rw [List.getD_eq_getElem _ 0 ht, List.getElem_zipWith,
    List.getD_eq_getElem rest 0 h, List.getD_eq_getElem _ 0 ht2]

/-- Length of the cumulative-product column equals the return count. -/
theorem scanMul_length (a : ℚ) (rs : List ℚ) :
    (scanMul a rs).length = rs.length := by
  induction rs generalizing a with
  | nil => rfl
  | cons r rest ih => simp [scanMul, ih]

/-- First entry of the cumulative-product column. -/
theorem scanMul_getD_zero (a : ℚ) (rs : List ℚ) (h : rs ≠ []) :
    (scanMul a rs).getD 0 0 = a * (1 + rs.getD 0 0) := by
  cases rs with
  | nil => exact absurd rfl h
  | cons r rest => rfl

/-- Recursion of the cumulative-product column: each entry is the prior
entry times one plus the matching return. -/
theorem scanMul_getD_succ (a : ℚ) (rs : List ℚ) (t : ℕ)
    (h : t + 1 < rs.length) :
    (scanMul a rs).getD (t + 1) 0
      = (scanMul a rs).getD t 0 * (1 + rs.getD (t + 1) 0) := by
  induction rs generalizing a t with
  | nil => simp at h
  | cons r rest ih =>
      cases t with
      | zero =>
          cases rest with
          | nil => simp at h
          | cons r2 rest2 => simp [scanMul]
      | succ u =>
          have hu : u + 1 < rest.length := by simp at h; omega
          show (scanMul (a * (1 + r)) rest).getD (u + 1) 0 = _
          rw [ih (a * (1 + r)) u hu]
          rfl

/-- Length of the net-return series: the zipWith truncation of
backtest.py line 60 and 66. -/
theorem netReturns_length (s p : List ℚ) (c sl : ℚ) :
    (netReturns s p c sl).length = min s.length p.length := by
  simp [netReturns, List.length_zipWith, pairOp_length, shift1, pctChange,
    diffF]

/-- Pointwise value of the net-return series within bounds. -/
theorem netReturns_getD (s p : List ℚ) (c sl : ℚ) (t : ℕ)
    (h : t < min s.length p.length) :
    (netReturns s p c sl).getD t 0
      = (shift1 s).getD t 0 * (pctChange p).getD t 0
        - (c + sl) * |(diffF s).getD t 0| := by
  have hlen : (netReturns s p c sl).length = min s.length p.length :=
    netReturns_length s p c sl
  have hs1 : (shift1 s).length = s.length := pairOp_length _ s
  have hpc : (pctChange p).length = p.length := pairOp_length _ p
  have hdf : (diffF s).length = s.length := pairOp_length _ s
  have ht : t < (netReturns s p c sl).length := by omega
  rw [List.getD_eq_getElem _ 0 ht]
  unfold netReturns
  rw [List.getElem_zipWith, List.getElem_zipWith, List.getElem_map,
    List.getElem_map]
  rw [List.getD_eq_getElem (shift1 s) 0 (by omega),
    List.getD_eq_getElem (pctChange p) 0 (by omega),
    List.getD_eq_getElem (diffF s) 0 (by omega)]

/-- The net return of the first period is exactly 0: position, asset
return and turnover are all filled to 0 there. -/
theorem netReturns_getD_zero (s p : List ℚ) (c sl : ℚ) :
    (netReturns s p c sl).getD 0 0 = 0 := by
  by_cases h : 0 < min s.length p.length
  · rw [netReturns_getD s p c sl 0 h]
    simp only [shift1, pctChange, diffF]
    rw [pairOp_getD_zero, pairOp_getD_zero, pairOp_getD_zero]
    simp
  · have : (netReturns s p c sl).length ≤ 0 := by
      rw [netReturns_length]; omega
    rw [List.getD_eq_default _ 0 this]

/-- The engine-built portfolio always carries the four written columns. -/
theorem enginePortfolio_columns (data : PriceTable) (signals : List ℚ)
    (cap com slip : ℚ) :
    (enginePortfolio data signals cap com slip).columns
      = [colReturns, colTotal, colHoldings, colCash] := rfl

/-- On a table carrying both required columns, calculate_metrics never
raises: it returns some metrics dictionary. -/
theorem calculate_metrics_ok_of_columns (ops : FloatOps) (cfg : PerfConfig)
    (p : Portfolio) (h1 : colReturns ∈ p.columns) (h2 : colTotal ∈ p.columns) :
    ∃ m, calculate_metrics ops cfg p = Except.ok m := by
  unfold calculate_metrics
  rw [if_neg (by simp [h1, h2])]
  by_cases h : p.returns.length < 2
  · rw [if_pos h]; exact ⟨_, rfl⟩
  · rw [if_neg h]; exact ⟨_, rfl⟩

/-- C10: a portfolio DataFrame lacking the returns column or the total
column makes calculate_metrics raise the missing-columns ValueError
unconditionally — in particular also when the table has fewer than 2
rows, since the column check (performance.py line 62) precedes the
short-table default path (line 65). -/
theorem missing_columns_value_error (ops : FloatOps) (cfg : PerfConfig)
    (p : Portfolio)
    (h : ¬ colReturns ∈ p.columns ∨ ¬ colTotal ∈ p.columns) :
    calculate_metrics ops cfg p
      = Except.error (PyExc.valueError msgMissingColumns) := by
  unfold calculate_metrics
  rw [if_pos (by tauto)]

/-- Witness for C10 at a one-row table lacking the returns column. -/
theorem missing_columns_value_error_witness :
    noReturnsColPort.returns.length < 2 ∧
    calculate_metrics idOps defaultPerfConfig noReturnsColPort
      = Except.error (PyExc.valueError msgMissingColumns) :=
  ⟨by decide,
    missing_columns_value_error idOps defaultPerfConfig noReturnsColPort
      (Or.inl (by decide))⟩

/-- C7: a portfolio table that has both required columns but fewer than 2
rows yields the all-default metrics dictionary (zeros, with beta, alpha
and profit_factor as NaN) and does not raise. -/
theorem metrics_defaults_on_short_table (ops : FloatOps) (cfg : PerfConfig)
    (p : Portfolio) (h1 : colReturns ∈ p.columns) (h2 : colTotal ∈ p.columns)
    (h3 : p.returns.length < 2) :
    calculate_metrics ops cfg p = Except.ok default_metrics := by
  unfold calculate_metrics
  rw [if_neg (by simp [h1, h2]), if_pos h3]

/-- Witness for C7 at a concrete one-row table. -/
theorem metrics_defaults_on_short_table_witness :
    calculate_metrics idOps defaultPerfConfig oneRowPort
      = Except.ok default_metrics :=
  metrics_defaults_on_short_table idOps defaultPerfConfig oneRowPort
    (by decide) (by decide) (by decide)

/-- C9: an unknown strategy type makes run_parallel_backtests fail with
the EngineError naming the invalid type, with zero invocations of the
simulation step (the instrumentation counter in the second component). -/
theorem unknown_strategy_fails_before_simulation (ops : FloatOps)
    (registry : Registry) (datas : List PriceTable) (stype : String)
    (params : Params) (config : BacktestConfig)
    (h : registry.lookup stype = none) :
    run_parallel_backtestsC ops registry datas stype params config
      = (Except.error (PyExc.engineError ("Invalid strategy type: " ++ stype)),
          0) := by
  unfold run_parallel_backtestsC
  rw [h]

/-- Witness for C9: a type absent from a concrete registry. -/
theorem unknown_strategy_fails_before_simulation_witness :
    run_parallel_backtestsC idOps soloRegistry [gridGoodData] bogusType []
        ⟨1, 0, 0, true⟩
      = (Except.error (PyExc.engineError
          ("Invalid strategy type: " ++ bogusType)), 0) :=
  unknown_strategy_fails_before_simulation idOps soloRegistry [gridGoodData]
    bogusType [] ⟨1, 0, 0, true⟩ (by rfl)

/-- C6: before the strategy is ever consulted, run_backtest fails with the
EngineError mentioning insufficient or invalid data exactly when the price
table lacks the adjusted-close column or has fewer than 2 rows; on such a
table the result is the same for every strategy (the strategy is not
invoked), and on a valid table that error is never produced. -/
theorem backtest_insufficient_data_check (ops : FloatOps) (data : PriceTable)
    (strategy : Strategy) (cap com slip : ℚ) :
    ((¬ colAdjClose ∈ data.columns ∨ data.adjClose.length < 2) ↔
      run_backtest ops data strategy cap com slip
        = Except.error (PyExc.engineError msgInsufficient))
    ∧ ((¬ colAdjClose ∈ data.columns ∨ data.adjClose.length < 2) →
        ∀ g : Strategy, run_backtest ops data strategy cap com slip
          = run_backtest ops data g cap com slip) := by
  by_cases h : ¬ colAdjClose ∈ data.columns ∨ data.adjClose.length < 2
  · refine ⟨⟨fun _ => ?_, fun _ => h⟩, fun _ g => ?_⟩
    · unfold run_backtest; rw [if_pos h]
    · unfold run_backtest; rw [if_pos h, if_pos h]
  · refine ⟨⟨fun hc => absurd hc h, fun heq => ?_⟩, fun hc => absurd hc h⟩
    exfalso
    obtain ⟨m, hm⟩ := calculate_metrics_ok_of_columns ops defaultPerfConfig
      (enginePortfolio data (strategy data) cap com slip)
      (by rw [enginePortfolio_columns]; simp) (by rw [enginePortfolio_columns]; simp)
    unfold run_backtest at heq
    rw [if_neg h] at heq
    simp only [hm] at heq
    exact Except.noConfusion heq

/-- Witness for C6: a two-row table without the adjusted-close column. -/
theorem backtest_insufficient_data_check_witness :
    run_backtest idOps noAdjCloseData sigStayFlat 100 0 0
      = Except.error (PyExc.engineError msgInsufficient) :=
  (backtest_insufficient_data_check idOps noAdjCloseData sigStayFlat
    100 0 0).1.mp (by decide)

/-- C3 (code bug): a parameter combination whose backtest raises — here
because its instrument lacks the adjusted-close column — surfaces as an
EngineError, which is missing from the except tuple of _evaluate_params
(grid_search.py line 171) and from the handlers around future.result()
(lines 200-205): the combination is NOT scored negative infinity, the
exception escapes, and the whole sweep aborts with it instead of
completing. -/
theorem sweep_engine_error_aborts :
    evaluate_params idOps soloRegistry sweepAbortCfg comboP1
      = EvalOutcome.raised (PyExc.engineError msgInsufficient)
    ∧ evaluate_params idOps soloRegistry sweepAbortCfg comboP1
      ≠ EvalOutcome.score Fl.ninf
    ∧ optimize idOps soloRegistry sweepAbortCfg
      = Except.error (PyExc.engineError msgInsufficient) :=
  ⟨rfl, by decide, rfl⟩

/-- C4 (code bug): with the negation-marked objective -max_drawdown, the
backtests themselves succeed, yet _evaluate_params looks the metric up
under the prefixed name verbatim (grid_search.py line 161), which is not
a key of the metrics dictionary: the body raises KeyError and the
combination is scored negative infinity instead of the sign-inverted
averaged drawdown the negation marker is documented to produce. -/
theorem negated_metric_scores_neg_inf :
    (∃ r, (run_parallel_backtestsC idOps soloRegistry negObjectiveCfg.data
      negObjectiveCfg.strategy_type comboP1
      negObjectiveCfg.backtest_config).1 = Except.ok r)
    ∧ evalBody idOps soloRegistry negObjectiveCfg comboP1
      = Except.error (PyExc.keyError negObjective)
    ∧ evaluate_params idOps soloRegistry negObjectiveCfg comboP1
      = EvalOutcome.score Fl.ninf :=
  ⟨⟨_, rfl⟩, rfl, rfl⟩

/-- A successful run_backtest implies the price table passed validation. -/
theorem run_backtest_ok_valid (ops : FloatOps) (data : PriceTable)
    (strategy : Strategy) (cap com slip : ℚ) (res : BTResult)
    (hok : run_backtest ops data strategy cap com slip = Except.ok res) :
    colAdjClose ∈ data.columns ∧ 2 ≤ data.adjClose.length := by
  by_cases h : ¬ colAdjClose ∈ data.columns ∨ data.adjClose.length < 2
  · exfalso
    unfold run_backtest at hok
    rw [if_pos h] at hok
    exact Except.noConfusion hok
  · push_neg at h
    exact ⟨h.1, h.2⟩

/-- The portfolio of a successful run_backtest is the engine-built table
on the signals the strategy produced. -/
theorem run_backtest_ok_portfolio (ops : FloatOps) (data : PriceTable)
    (strategy : Strategy) (cap com slip : ℚ) (res : BTResult)
    (hok : run_backtest ops data strategy cap com slip = Except.ok res) :
    res.portfolio = enginePortfolio data (strategy data) cap com slip := by
  unfold run_backtest at hok
  by_cases h : ¬ colAdjClose ∈ data.columns ∨ data.adjClose.length < 2
  · rw [if_pos h] at hok
    exact Except.noConfusion hok
  · rw [if_neg h] at hok
    obtain ⟨m, hm⟩ := calculate_metrics_ok_of_columns ops defaultPerfConfig
      (enginePortfolio data (strategy data) cap com slip)
      (by rw [enginePortfolio_columns]; simp)
      (by rw [enginePortfolio_columns]; simp)
    simp only [hm] at hok
    injection hok with h2
    rw [← h2]

/-- C2: equity recursion of the simulator output.  The first period
return is 0 (no prior position, filled asset return and turnover), the
first equity entry equals initial_capital exactly, and every later
equity entry is the prior entry times one plus that period's return. -/
theorem equity_recursion (ops : FloatOps) (data : PriceTable)
    (strategy : Strategy) (cap com slip : ℚ) (res : BTResult)
    (hok : run_backtest ops data strategy cap com slip = Except.ok res)
    (hsig : (strategy data).length = data.adjClose.length) :
    res.portfolio.returns.getD 0 0 = 0 ∧
    res.portfolio.total.getD 0 0 = cap ∧
    ∀ t, 0 < t → t < res.portfolio.total.length →
      res.portfolio.total.getD t 0
        = res.portfolio.total.getD (t - 1) 0
          * (1 + res.portfolio.returns.getD t 0) := by
  have hport := run_backtest_ok_portfolio ops data strategy cap com slip res hok
  have hvalid := run_backtest_ok_valid ops data strategy cap com slip res hok
  have hret : res.portfolio.returns
      = netReturns (strategy data) data.adjClose com slip := by
    rw [hport]; rfl
  have htot : res.portfolio.total
      = scanMul cap (netReturns (strategy data) data.adjClose com slip) := by
    rw [hport]; rfl
  have hnetlen : (netReturns (strategy data) data.adjClose com slip).length
      = data.adjClose.length := by
    rw [netReturns_length, hsig]; omega
  have hzero : (netReturns (strategy data) data.adjClose com slip).getD 0 0
      = 0 := netReturns_getD_zero _ _ _ _
  have hne : netReturns (strategy data) data.adjClose com slip ≠ [] := by
    intro hc
    rw [hc] at hnetlen
    simp at hnetlen
    omega
  refine ⟨by rw [hret]; exact hzero, ?_, ?_⟩
  · rw [htot, scanMul_getD_zero cap _ hne, hzero]
    ring
  · intro t ht htlen
    obtain ⟨u, rfl⟩ : ∃ u, t = u + 1 := ⟨t - 1, by omega⟩
    rw [htot, scanMul_length] at htlen
    rw [htot, hret, scanMul_getD_succ cap _ u htlen]
    simp

/-- Witness for C2: the rising three-row scenario, checked at the first
and last rows. -/
theorem equity_recursion_witness :
    (okOr (run_backtest idOps risingPrices sigAllLong 100000 0 0)).portfolio.total.getD 0 0
      = 100000
    ∧ (okOr (run_backtest idOps risingPrices sigAllLong 100000 0 0)).portfolio.total.getD 2 0
      = (okOr (run_backtest idOps risingPrices sigAllLong 100000 0 0)).portfolio.total.getD 1 0
        * (1 + (okOr (run_backtest idOps risingPrices sigAllLong 100000 0 0)).portfolio.returns.getD 2 0) := by
  have h := equity_recursion idOps risingPrices sigAllLong 100000 0 0
    (okOr (run_backtest idOps risingPrices sigAllLong 100000 0 0))
    (by rfl) (by rfl)
  exact ⟨h.2.1, h.2.2 2 (by decide) (by decide)⟩

/-- C1 (amended): the position lag holds unconditionally — position[0] is
0 and position[t] is signal[t-1] — and, when commission + slippage = 0,
period_return[t] is unchanged by any change of the signals at indices t
or later (so changing signal[t] never changes period_return[t]).  With
nonzero frictions this independence fails, because period_return[t]
includes the transaction-cost term
(commission + slippage) * |signal[t] - signal[t-1]|, which reads
signal[t]; see the counterexample. -/
theorem position_lag_and_zero_friction_no_lookahead :
    (∀ signals : List ℚ,
      (shift1 signals).getD 0 0 = 0 ∧
      ∀ t, 0 < t → t < signals.length →
        (shift1 signals).getD t 0 = signals.getD (t - 1) 0)
    ∧ (∀ prices s1 s2 : List ℚ, ∀ com slip : ℚ, ∀ t : ℕ,
        com + slip = 0 → s1.length = s2.length →
        (∀ k, k < t → s1.getD k 0 = s2.getD k 0) →
        (netReturns s1 prices com slip).getD t 0
          = (netReturns s2 prices com slip).getD t 0) := by
  constructor
  · intro signals
    refine ⟨pairOp_getD_zero _ signals, ?_⟩
    intro t ht htlen
    obtain ⟨u, rfl⟩ : ∃ u, t = u + 1 := ⟨t - 1, by omega⟩
    cases signals with
    | nil => simp at htlen
    | cons x rest =>
        have hu : u < rest.length := by simp at htlen; omega
        show (pairOp _ (x :: rest)).getD (u + 1) 0 = _
        rw [pairOp_getD_succ _ x rest u hu]
        simp
  · intro prices s1 s2 com slip t hcs hlen hagree
    by_cases hT : t < min s1.length prices.length
    · have hT2 : t < min s2.length prices.length := by omega
      rw [netReturns_getD _ _ _ _ t hT, netReturns_getD _ _ _ _ t hT2, hcs]
      simp only [zero_mul, sub_zero]
      congr 1
      cases t with
      | zero =>
          show (pairOp _ s1).getD 0 0 = (pairOp _ s2).getD 0 0
          rw [pairOp_getD_zero, pairOp_getD_zero]
      | succ u =>
          cases s1 with
          | nil => simp at hT
          | cons x r1 =>
              cases s2 with
              | nil => simp at hT2
              | cons y r2 =>
                  show (pairOp _ (x :: r1)).getD (u + 1) 0
                    = (pairOp _ (y :: r2)).getD (u + 1) 0
                  rw [pairOp_getD_succ _ x r1 u (by simp at hT; omega),
                    pairOp_getD_succ _ y r2 u (by simp at hT2; omega)]
                  exact hagree u (by omega)
    · have h1 : (netReturns s1 prices com slip).length ≤ t := by
        rw [netReturns_length]; omega
      have h2 : (netReturns s2 prices com slip).length ≤ t := by
        rw [netReturns_length]; omega
      rw [List.getD_eq_default _ 0 h1, List.getD_eq_default _ 0 h2]

/-- Witness for C1 (amended): the lag at index 1, and zero-friction
independence of period return 1 from the index-1 signal change. -/
theorem position_lag_and_zero_friction_no_lookahead_witness :
    (shift1 (sigEnterLate flatPrices)).getD 1 0
      = (sigEnterLate flatPrices).getD 0 0
    ∧ (netReturns (sigStayFlat flatPrices) flatPrices.adjClose 0 0).getD 1 0
      = (netReturns (sigEnterLate flatPrices) flatPrices.adjClose 0 0).getD 1 0 := by
  have h := position_lag_and_zero_friction_no_lookahead
  refine ⟨(h.1 (sigEnterLate flatPrices)).2 1 (by decide) (by decide), ?_⟩
  refine h.2 flatPrices.adjClose (sigStayFlat flatPrices)
    (sigEnterLate flatPrices) 0 0 1 (by norm_num) (by decide) ?_
  intro k hk
  interval_cases k
  rfl

/-- C1 counterexample: on a flat two-row price series with commission 1,
two signal series agreeing at index 0 but differing at index 1 produce
different period returns at index 1 itself (0 against -1): changing
signal[t] does change period_return[t] through the transaction cost. -/
theorem changing_signal_changes_same_period_return :
    (sigStayFlat flatPrices).getD 0 0 = (sigEnterLate flatPrices).getD 0 0
    ∧ (sigStayFlat flatPrices).getD 1 0 ≠ (sigEnterLate flatPrices).getD 1 0
    ∧ (getReturns (run_backtest idOps flatPrices sigStayFlat 100 1 0)).getD 1 0
      ≠ (getReturns (run_backtest idOps flatPrices sigEnterLate 100 1 0)).getD 1 0 :=
  ⟨rfl, by with_unfolding_all decide, by with_unfolding_all decide⟩

/-- Lookup of the max_drawdown key in the metrics dictionary literal. -/
theorem mkMetrics_lookup_mdd (tr cg : ℚ) (sh so : Fl) (mdd cal : ℚ)
    (vol be al : Fl) (nt : ℕ) (wr avg : ℚ) (pf : Fl) :
    (mkMetrics tr cg sh so mdd cal vol be al nt wr avg pf).lookup
      keyMaxDrawdown = some (Fl.val mdd) := rfl

/-- Lookup of the num_trades key in the metrics dictionary literal. -/
theorem mkMetrics_lookup_numTrades (tr cg : ℚ) (sh so : Fl) (mdd cal : ℚ)
    (vol be al : Fl) (nt : ℕ) (wr avg : ℚ) (pf : Fl) :
    (mkMetrics tr cg sh so mdd cal vol be al nt wr avg pf).lookup
      keyNumTrades = some (Fl.val (nt : ℚ)) := rfl

/-- Lookup of the win_rate key in the metrics dictionary literal. -/
theorem mkMetrics_lookup_winRate (tr cg : ℚ) (sh so : Fl) (mdd cal : ℚ)
    (vol be al : Fl) (nt : ℕ) (wr avg : ℚ) (pf : Fl) :
    (mkMetrics tr cg sh so mdd cal vol be al nt wr avg pf).lookup
      keyWinRate = some (Fl.val wr) := rfl

/-- Lookup of the avg_return_per_trade key in the metrics dictionary
literal. -/
theorem mkMetrics_lookup_avg (tr cg : ℚ) (sh so : Fl) (mdd cal : ℚ)
    (vol be al : Fl) (nt : ℕ) (wr avg : ℚ) (pf : Fl) :
    (mkMetrics tr cg sh so mdd cal vol be al nt wr avg pf).lookup
      keyAvgReturnPerTrade = some (Fl.val avg) := rfl

/-- Lookup of the profit_factor key in the metrics dictionary literal. -/
theorem mkMetrics_lookup_pf (tr cg : ℚ) (sh so : Fl) (mdd cal : ℚ)
    (vol be al : Fl) (nt : ℕ) (wr avg : ℚ) (pf : Fl) :
    (mkMetrics tr cg sh so mdd cal vol be al nt wr avg pf).lookup
      keyProfitFactor = some pf := rfl

/-- The fold of min over a list always lands on the seed or a member. -/
theorem foldl_min_mem (x : ℚ) (xs : List ℚ) :
    xs.foldl min x ∈ x :: xs := by
  induction xs generalizing x with
  | nil => simp
  | cons y ys ih =>
      show List.foldl min (min x y) ys ∈ x :: y :: ys
      rcases List.mem_cons.mp (ih (min x y)) with h1 | h2
      · rcases min_choice x y with hc | hc <;> rw [h1, hc] <;> simp
      · simp [h2]

/-- listMin of a nonempty list is one of its members. -/
theorem listMin_mem (l : List ℚ) (h : l ≠ []) : listMin l ∈ l := by
  cases l with
  | nil => exact absurd rfl h
  | cons x xs => exact foldl_min_mem x xs

/-- Every drawdown entry against a positive running maximum lies in
[-1, 0] when the equity entries are positive. -/
theorem drawdown_entry_bounds (xs : List ℚ) (acc : ℚ) (hacc : 0 < acc)
    (hall : ∀ x ∈ xs, 0 < x) :
    ∀ d ∈ List.zipWith (fun t pk => (t - pk) / pk) xs (cummaxFrom acc xs),
      -1 ≤ d ∧ d ≤ 0 := by
  induction xs generalizing acc with
  | nil => intro d hd; simp [cummaxFrom] at hd
  | cons x rest ih =>
      intro d hd
      simp only [cummaxFrom, List.zipWith_cons_cons] at hd
      have hx : 0 < x := hall x (by simp)
      have hpk : 0 < max acc x := lt_max_of_lt_left hacc
      rcases List.mem_cons.mp hd with h1 | h2
      · subst h1
        constructor
        · rw [le_div_iff₀ hpk]
          have := le_max_right acc x
          nlinarith
        · rw [div_le_iff₀ hpk]
          have := le_max_right acc x
          nlinarith
      · exact ih (max acc x) hpk (fun y hy => hall y (by simp [hy])) d h2

/-- The max_drawdown expression of performance.py lines 116-119 lies in
[-1, 0] whenever every equity entry is positive. -/
theorem maxDrawdown_bounds (total : List ℚ) (hpos : ∀ x ∈ total, 0 < x) :
    -1 ≤ (if (List.zipWith (fun t pk => (t - pk) / pk) total
            (cummax total)).isEmpty then (0 : ℚ)
          else listMin (List.zipWith (fun t pk => (t - pk) / pk) total
            (cummax total)))
    ∧ (if (List.zipWith (fun t pk => (t - pk) / pk) total
            (cummax total)).isEmpty then (0 : ℚ)
          else listMin (List.zipWith (fun t pk => (t - pk) / pk) total
            (cummax total))) ≤ 0 := by
  by_cases hemp : (List.zipWith (fun t pk => (t - pk) / pk) total
      (cummax total)).isEmpty
  · simp only [hemp, if_pos]
    norm_num
  · simp only [hemp, if_neg, Bool.false_eq_true]
    have hne : List.zipWith (fun t pk => (t - pk) / pk) total (cummax total)
        ≠ [] := by
      intro hc; rw [hc] at hemp; exact hemp rfl
    have hbound : ∀ d ∈ List.zipWith (fun t pk => (t - pk) / pk) total
        (cummax total), -1 ≤ d ∧ d ≤ 0 := by
      cases total with
      | nil => intro d hd; simp [cummax] at hd
      | cons x rest =>
          intro d hd
          simp only [cummax, List.zipWith_cons_cons] at hd
          rcases List.mem_cons.mp hd with h1 | h2
          · subst h1
            constructor
            · simp
            · simp
          · exact drawdown_entry_bounds rest x (hpos x (by simp))
              (fun y hy => hpos y (by simp [hy])) d h2
    have hmem := listMin_mem _ hne
    exact hbound _ hmem

/-- C5 (amended): whenever every equity entry of the portfolio table is
positive, the max_drawdown metric returned by calculate_metrics — the
minimum drawdown against the running equity peak, or the default 0 —
lies in [-1, 0].  Without the positivity restriction the bound fails:
equity can turn negative when a period return drops below -1, and the
drawdown then falls below -1 (see the counterexample). -/
theorem max_drawdown_bounded_of_positive_equity (ops : FloatOps)
    (cfg : PerfConfig) (p : Portfolio) (m : Metrics)
    (hpos : ∀ x ∈ p.total, 0 < x)
    (hok : calculate_metrics ops cfg p = Except.ok m) :
    ∃ q, m.lookup keyMaxDrawdown = some (Fl.val q) ∧ -1 ≤ q ∧ q ≤ 0 := by
  simp only [calculate_metrics] at hok
  by_cases hcols : ¬ (colReturns ∈ p.columns ∧ colTotal ∈ p.columns)
  · rw [if_pos hcols] at hok
    exact Except.noConfusion hok
  · rw [if_neg hcols] at hok
    by_cases hshort : p.returns.length < 2
    · rw [if_pos hshort] at hok
      injection hok with hm
      refine ⟨0, ?_, by norm_num, by norm_num⟩
      rw [← hm]
      rfl
    · rw [if_neg hshort] at hok
      injection hok with hm
      rw [← hm]
      exact ⟨_, mkMetrics_lookup_mdd _ _ _ _ _ _ _ _ _ _ _ _ _,
        (maxDrawdown_bounds p.total hpos).1,
        (maxDrawdown_bounds p.total hpos).2⟩

/-- Witness for C5 (amended) at a table whose equity halves. -/
theorem max_drawdown_bounded_of_positive_equity_witness :
    ∃ q, (okMetrics (calculate_metrics idOps defaultPerfConfig
        halvingPort)).lookup keyMaxDrawdown = some (Fl.val q)
      ∧ -1 ≤ q ∧ q ≤ 0 :=
  max_drawdown_bounded_of_positive_equity idOps defaultPerfConfig halvingPort
    _ (by with_unfolding_all decide) (by with_unfolding_all rfl)

/-- C5 counterexample: a portfolio table whose equity goes from 100 to
-50 (period return -3/2) yields max_drawdown = -3/2, outside [-1, 0]. -/
theorem max_drawdown_below_neg_one_cex :
    (okMetrics (calculate_metrics idOps defaultPerfConfig
        negEquityPort)).lookup keyMaxDrawdown = some (Fl.val (-3/2))
    ∧ ¬ (-1 ≤ (-3/2 : ℚ)) :=
  ⟨by with_unfolding_all rfl, by norm_num⟩

/-- A nonempty list of negative rationals has negative sum. -/
theorem sum_neg_of_all_neg (l : List ℚ) (h : ∀ x ∈ l, x < 0) (hne : l ≠ []) :
    l.sum < 0 := by
  induction l with
  | nil => exact absurd rfl hne
  | cons x xs ih =>
      simp only [List.sum_cons]
      rcases eq_or_ne xs [] with hxs | hxs
      · subst hxs
        simpa using h x (by simp)
      · have h1 := ih (fun y hy => h y (by simp [hy])) hxs
        have hx := h x (by simp)
        linarith

/-- The loss sum is exactly 0 precisely when there are no losses. -/
theorem negFilter_sum_zero_iff (l : List ℚ) :
    (l.filter (fun r => r < 0)).sum = 0 ↔ l.filter (fun r => r < 0) = [] := by
  constructor
  · intro hs
    by_contra hne
    have hneg : (l.filter (fun r => r < 0)).sum < 0 := by
      refine sum_neg_of_all_neg _ ?_ hne
      intro x hx
      simpa using (List.mem_filter.mp hx).2
    rw [hs] at hneg
    exact lt_irrefl 0 hneg
  · intro h
    rw [h]
    rfl

/-- C8: trade-level statistics of calculate_metrics on a table with at
least 2 rows, over the nonzero period returns.  No trades gives the
documented defaults with profit factor NaN; otherwise win rate, average
return per trade and profit factor follow the stated formulas, the
profit factor is +infinity exactly when the loss sum is 0, and the loss
sum is 0 exactly when every trade is positive. -/
theorem trade_stats_formulas (ops : FloatOps) (cfg : PerfConfig)
    (p : Portfolio) (m : Metrics)
    (hlen : 2 ≤ p.returns.length)
    (hok : calculate_metrics ops cfg p = Except.ok m) :
    ((p.returns.filter (fun r => r ≠ 0)) = [] →
      m.lookup keyNumTrades = some (Fl.val 0)
      ∧ m.lookup keyWinRate = some (Fl.val 0)
      ∧ m.lookup keyAvgReturnPerTrade = some (Fl.val 0)
      ∧ m.lookup keyProfitFactor = some Fl.nan)
    ∧ ((p.returns.filter (fun r => r ≠ 0)) ≠ [] →
      m.lookup keyNumTrades
        = some (Fl.val ((p.returns.filter (fun r => r ≠ 0)).length : ℚ))
      ∧ m.lookup keyWinRate
        = some (Fl.val
          ((((p.returns.filter (fun r => r ≠ 0)).filter
              (fun r => 0 < r)).length : ℚ)
            / ((p.returns.filter (fun r => r ≠ 0)).length : ℚ)))
      ∧ m.lookup keyAvgReturnPerTrade
        = some (Fl.val ((p.returns.filter (fun r => r ≠ 0)).sum
            / ((p.returns.filter (fun r => r ≠ 0)).length : ℚ)))
      ∧ m.lookup keyProfitFactor
        = some (if ((p.returns.filter (fun r => r ≠ 0)).filter
              (fun r => r < 0)).sum = 0
            then Fl.inf
            else Fl.val
              ((((p.returns.filter (fun r => r ≠ 0)).filter
                  (fun r => 0 < r)).sum)
                / |((p.returns.filter (fun r => r ≠ 0)).filter
                  (fun r => r < 0)).sum|))
      ∧ (m.lookup keyProfitFactor = some Fl.inf
          ↔ ((p.returns.filter (fun r => r ≠ 0)).filter
              (fun r => r < 0)).sum = 0)
      ∧ (((p.returns.filter (fun r => r ≠ 0)).filter
              (fun r => r < 0)).sum = 0
          ↔ ∀ r ∈ p.returns.filter (fun r => r ≠ 0), 0 < r)) := by
  simp only [calculate_metrics] at hok
  by_cases hcols : ¬ (colReturns ∈ p.columns ∧ colTotal ∈ p.columns)
  · rw [if_pos hcols] at hok
    exact Except.noConfusion hok
  · rw [if_neg hcols] at hok
    rw [if_neg (by omega)] at hok
    injection hok with hm
    constructor
    · intro hT
      have hnt : (p.returns.filter (fun r => r ≠ 0)).length = 0 := by
        rw [hT]; rfl
      rw [← hm]
      rw [mkMetrics_lookup_numTrades, mkMetrics_lookup_winRate,
        mkMetrics_lookup_avg, mkMetrics_lookup_pf]
      rw [hnt]
      simp
    · intro hT
      have hnt : ¬ (p.returns.filter (fun r => r ≠ 0)).length = 0 := by
        simpa [List.length_eq_zero] using hT
      rw [← hm]
      rw [mkMetrics_lookup_numTrades, mkMetrics_lookup_winRate,
        mkMetrics_lookup_avg, mkMetrics_lookup_pf]
      rw [if_neg hnt, if_neg hnt, if_neg hnt]
      refine ⟨rfl, rfl, rfl, ?_, ?_, ?_⟩
      · by_cases hz : ((p.returns.filter (fun r => r ≠ 0)).filter
            (fun r => r < 0)).sum = 0
        · rw [if_pos hz, if_neg (by rw [hz]; simp)]
        · rw [if_neg hz, if_pos (by rw [ne_eq, abs_eq_zero]; exact hz)]
      · by_cases hz : ((p.returns.filter (fun r => r ≠ 0)).filter
            (fun r => r < 0)).sum = 0
        · rw [if_neg (by rw [hz]; simp)]
          exact iff_of_true rfl hz
        · rw [if_pos (by rw [ne_eq, abs_eq_zero]; exact hz)]
          refine iff_of_false ?_ hz
          intro hcontra
          exact Fl.noConfusion (Option.some.inj hcontra)
      · rw [negFilter_sum_zero_iff]
        rw [List.filter_eq_nil_iff]
        constructor
        · intro hall r hr
          have h1 : ¬ r < 0 := by simpa using hall r hr
          have h2 : r ≠ 0 := by simpa using (List.mem_filter.mp hr).2
          rcases lt_trichotomy r 0 with hlt | heq | hgt
          · exact absurd hlt h1
          · exact absurd heq h2
          · exact hgt
        · intro hall r hr
          simp only [decide_eq_true_eq]
          exact not_lt_of_gt (hall r hr)

/-- Witness for C8 at a table with one winning and one losing trade. -/
theorem trade_stats_formulas_witness :
    (okMetrics (calculate_metrics idOps defaultPerfConfig
        mixedTradesPort)).lookup keyWinRate
      = some (Fl.val
          ((((mixedTradesPort.returns.filter (fun r => r ≠ 0)).filter
              (fun r => 0 < r)).length : ℚ)
            / ((mixedTradesPort.returns.filter (fun r => r ≠ 0)).length : ℚ))) :=
  ((trade_stats_formulas idOps defaultPerfConfig mixedTradesPort _
      (by decide) (by with_unfolding_all rfl)).2
    (by with_unfolding_all decide)).2.1
